import Mathlib

/-!
Verification development for the real-time messaging client of the
amoiq-chat-widget repository (class `ChatWebSocketNative` in the Socket.IO
client module).  The JavaScript/TypeScript code is shallowly embedded:

* dynamic payload objects become the `RawMessage` structure of optional
  string fields; JavaScript truthiness (`undefined` and `""` are falsy),
  the `||` operator and template-string interpolation (where `undefined`
  prints as `"undefined"`) are modelled by `truthy`, `jsOr` and `jsStr`;
* the mutable fields of the class instance become the `ClientState`
  structure, and each handler or method becomes a pure function from a
  state (plus the event data and the current time in milliseconds) to a
  new state together with a trace of observable `Action`s (callback
  invocations and socket emissions), in the order the code performs them;
* the `processedMessageKeys` map becomes an association list from key to
  first-seen timestamp;
* asynchronous completions (the result of the `initialize` HTTP call, the
  arrival of the server `joined` confirmation, the socket connectivity at
  the moment a timer fires) become explicit parameters of the functions
  that consume them, since the client is single threaded and each such
  continuation runs atomically on the event loop.
-/

namespace AmoiqChat

/-- Truthiness of an optional JavaScript string: `undefined`/`null` and the
empty string are falsy, every other string is truthy. -/
def truthy : Option String → Bool
  | none => false
  | some s => !(s == "")

/-- The JavaScript `a || b` operator on optional strings: returns `a` when
`a` is truthy, otherwise `b`. -/
def jsOr (a b : Option String) : Option String :=
  if truthy a then a else b

/-- Template-string interpolation of an optional string: `undefined`
interpolates as the literal text `"undefined"`. -/
def jsStr : Option String → String
  | none => "undefined"
  | some s => s

/-- Structural prefix test on character lists (kernel-computable helper
for the substring test below). -/
def charsHavePrefix : List Char → List Char → Bool
  | [], _ => true
  | _ :: _, [] => false
  | a :: as, b :: bs => a == b && charsHavePrefix as bs

/-- Structural occurrence test on character lists. -/
def charsContain (needle : List Char) : List Char → Bool
  | [] => needle.isEmpty
  | b :: t => charsHavePrefix needle (b :: t) || charsContain needle t

/-- The JavaScript `s.includes(sub)` substring test. -/
def strIncludes (s sub : String) : Bool :=
  charsContain sub.data s.data

/-- The JavaScript `s.toLowerCase()` conversion (character-wise, which is
what it does on the ASCII identifiers involved here). -/
def jsToLower (s : String) : String :=
  String.mk (s.data.map Char.toLower)

/-- Raw inbound message payload: the union of the field names the client
reads from `meta_message_created` and `message:new` event data (after the
`data.message || data` unwrapping).  Absent fields are `none`. -/
structure RawMessage where
  id : Option String := none
  message_id : Option String := none
  messageId : Option String := none
  text : Option String := none
  message_text : Option String := none
  message : Option String := none
  sender_type : Option String := none
  sender : Option String := none
  sender_id : Option String := none
  senderId : Option String := none
  sender_name : Option String := none
  senderName : Option String := none
  timestamp : Option String := none
  created_at : Option String := none
  inserted_at : Option String := none
  conversation_id : Option String := none
  tenant_id : Option String := none
  tenantId : Option String := none
  status : Option String := none
  deriving Repr, DecidableEq

/-- Embedding of `transformMessageNewToMessage`.  The source spreads the
input object and overrides the normalized fields; `nowIso` stands for the
`new Date().toISOString()` fallback timestamp.  The trailing conditional
mirrors the source's `if (data.sender && !transformed.senderId)` fix-up. -/
def transformMessageNewToMessage (nowIso : String) (data : RawMessage) : RawMessage :=
  let transformed : RawMessage :=
    { data with
      id := jsOr (jsOr data.message_id data.messageId) data.id
      text := jsOr (jsOr data.text data.message_text) data.message
      sender := some (if data.sender_type == some "user" then "user"
        else if data.sender_type == some "agent" then "agent"
        else if data.sender_type == some "human" then "agent"
        else "bot")
      senderId := jsOr data.sender_id data.sender
      senderName := data.sender_name
      timestamp := jsOr (jsOr (jsOr data.timestamp data.created_at) data.inserted_at) (some nowIso)
      conversation_id := data.conversation_id
      tenant_id := jsOr data.tenant_id data.tenantId
      status := data.status }
  if truthy data.sender && !(truthy transformed.senderId) then
    { transformed with senderId := data.sender }
  else
    transformed

/-- Embedding of `getMessageKey`: the content-based deduplication key
`conversationId:normalizedSender:text` computed on the raw (untransformed)
event data. -/
def getMessageKey (data : RawMessage) : String :=
  let text := jsOr data.text data.message_text
  let sender := jsOr data.sender_type data.sender
  let conversationId := data.conversation_id
  let normalizedSender :=
    if sender == some "agent" then some "human"
    else if sender == some "bot" then some "ai"
    else sender
  jsStr conversationId ++ ":" ++ jsStr normalizedSender ++ ":" ++ jsStr text

/-- The `MESSAGE_CACHE_TTL` constant: 60 seconds, in milliseconds. -/
def MESSAGE_CACHE_TTL : Nat := 60000

/-- Lookup in the `processedMessageKeys` map (association list from key to
first-seen timestamp). -/
def mapGet (m : List (String × Nat)) (k : String) : Option Nat :=
  match m.find? (fun p => p.1 == k) with
  | some p => some p.2
  | none => none

/-- Insertion into the `processedMessageKeys` map, replacing any previous
binding of the key. -/
def mapSet (m : List (String × Nat)) (k : String) (v : Nat) : List (String × Nat) :=
  (k, v) :: m.filter (fun p => !(p.1 == k))

/-- Embedding of `hasProcessedMessage`: a key counts as seen when it is in
the map and was recorded less than `MESSAGE_CACHE_TTL` ago. -/
def hasProcessedMessage (m : List (String × Nat)) (now : Nat) (key : String) : Bool :=
  match mapGet m key with
  | none => false
  | some ts => decide (now - ts < MESSAGE_CACHE_TTL)

/-- Embedding of `cleanMessageCache`: drop every entry strictly older than
the TTL. -/
def cleanMessageCache (m : List (String × Nat)) (now : Nat) : List (String × Nat) :=
  m.filter (fun p => !(decide (now - p.2 > MESSAGE_CACHE_TTL)))

/-- Embedding of `markMessageProcessed`: record the key at the current time
and prune expired entries. -/
def markMessageProcessed (m : List (String × Nat)) (now : Nat) (key : String) :
    List (String × Nat) :=
  cleanMessageCache (mapSet m key now) now

/-- Payload of an outbound `message` emission, assembled by `sendMessage`.
Fields mirror the object built in the source (website-context spread and
user profile omitted as opaque pass-through data). -/
structure OutboundMessage where
  text : String
  tenantId : Option String
  tenant_id : Option String
  conversation_id : Option String
  visitor_id : Option String
  timestamp : String
  sessionId : Option String
  fingerprint : Option String
  integration_id : Option String
  integrationId : Option String
  site_id : Option String
  siteId : Option String
  userId : Option String
  sender_name : Option String
  temp_id : Option String
  deriving Repr, DecidableEq

/-- Observable effects of the client, in program order: callback
invocations towards the UI layer and emissions or operations on the
socket.  `receivedJoinedConfirmation` marks the arrival of the server
`joined` event inside a handover. -/
inductive Action where
  | recordKey (key : String)
  | deliver (msg : RawMessage)
  | onErrorCb (msg : String)
  | onDisconnectCb
  | onConnectCb
  | onConversationCreatedCb (conversationId : String)
  | setupConversationListeners
  | emitJoinConversation (conversationId : String)
  | emitJoinSession (sessionId : String)
  | emitLeaveSession (sessionId : String)
  | receivedJoinedConfirmation
  | runInitialize (visitorId : Option String)
  | runConnect (token : String)
  | createSocket (token : String)
  | disconnectSocket
  | emitMessage (payload : OutboundMessage)
  deriving Repr, DecidableEq

/-- Mutable fields of a `ChatWebSocketNative` instance that the verified
operations read or write.  The socket object is abstracted by the pair
`socketExists` (`this.socket !== null`) and `socketConnected`
(`this.socket.connected`).  Defaults are the constructor values. -/
structure ClientState where
  tenantId : Option String := none
  integrationId : Option String := none
  siteId : Option String := none
  socketExists : Bool := false
  socketConnected : Bool := false
  shouldReconnect : Bool := true
  conversationId : Option String := none
  visitorId : Option String := none
  wsToken : Option String := none
  wsServerUrl : Option String := none
  reconnectTimer : Bool := false
  tokenExpiresAt : Option Nat := none
  tokenRefreshTimer : Option Nat := none
  presenceSessionId : Option String := none
  currentRoom : Option String := none
  processedMessageKeys : List (String × Nat) := []
  deriving Repr, DecidableEq

/-- The `this.currentRoom?.startsWith('conversation:')` test. -/
def roomIsConversation (room : Option String) : Bool :=
  match room with
  | none => false
  | some r => r.startsWith "conversation:"

/-- Synchronous part of `switchToConversationRoom`: bail out when the
socket is absent or not connected; otherwise install the conversation-room
message listeners, emit `join:conversation` and update `currentRoom`.  The
`once('joined')` continuation is modelled separately. -/
def switchToConversationRoomSync (s : ClientState) (conversationId : String) :
    ClientState × List Action :=
  if !(s.socketExists && s.socketConnected) then
    (s, [])
  else
    ({ s with currentRoom := some ("conversation:" ++ conversationId) },
     [Action.setupConversationListeners, Action.emitJoinConversation conversationId])

/-- Body of the `once('joined')` continuation registered by
`switchToConversationRoom`: emit `leave:session` when a presence session id
is known, then invoke the `onConversationCreated` callback. -/
def onJoinedConfirmationBody (s : ClientState) (conversationId : String) : List Action :=
  (if truthy s.presenceSessionId then
     [Action.emitLeaveSession (jsStr s.presenceSessionId)]
   else []) ++ [Action.onConversationCreatedCb conversationId]

/-- Whole `switchToConversationRoom` handover: the synchronous part, and,
when the socket is connected and the server `joined` confirmation arrives
(`joinedArrives`), the confirmation followed by the continuation body.  The
confirmation is the server response to the join request, so it can only
occur after the emit, which the trace order reflects. -/
def switchToConversationRoom (s : ClientState) (conversationId : String)
    (joinedArrives : Bool) : ClientState × List Action :=
  let r := switchToConversationRoomSync s conversationId
  if (s.socketExists && s.socketConnected) && joinedArrives then
    (r.1, r.2 ++ Action.receivedJoinedConfirmation :: onJoinedConfirmationBody r.1 conversationId)
  else
    r

/-- Embedding of the `meta_message_created` / `message:new` handlers
installed by `setupPresenceEventListeners` (both have identical logic):
skip when already in a conversation room, dedup, transform, then either
adopt a newly seen conversation id (switching rooms) and deliver, deliver
on a match or when no id is involved, and drop on a mismatch. -/
def handlePresenceMessageEvent (s : ClientState) (now : Nat) (nowIso : String)
    (rawMessage : RawMessage) : ClientState × List Action :=
  if roomIsConversation s.currentRoom then
    (s, [])
  else
    let messageKey := getMessageKey rawMessage
    if hasProcessedMessage s.processedMessageKeys now messageKey then
      (s, [])
    else
      let s1 := { s with
        processedMessageKeys := markMessageProcessed s.processedMessageKeys now messageKey }
      let message := transformMessageNewToMessage nowIso rawMessage
      if truthy message.conversation_id then
        if !(truthy s1.conversationId) then
          let s2 := { s1 with conversationId := message.conversation_id }
          let r := switchToConversationRoomSync s2 (jsStr message.conversation_id)
          (r.1, Action.recordKey messageKey ::
            r.2 ++ [Action.deliver (transformMessageNewToMessage nowIso message)])
        else
          if message.conversation_id == s1.conversationId then
            (s1, [Action.recordKey messageKey,
                  Action.deliver (transformMessageNewToMessage nowIso message)])
          else
            (s1, [Action.recordKey messageKey])
      else
        (s1, [Action.recordKey messageKey,
              Action.deliver (transformMessageNewToMessage nowIso message)])

/-- Embedding of `isTokenExpired`: no stored expiry counts as expired, and
otherwise the token counts as expired from one minute before `expiresAt`. -/
def isTokenExpired (tokenExpiresAt : Option Nat) (now : Nat) : Bool :=
  match tokenExpiresAt with
  | none => true
  | some expiresAt => decide (now ≥ expiresAt - 60000)

/-- Embedding of `connect` (browser case): fail through the error callback
when the token or the server URL is missing, return silently when already
connected, otherwise create a socket authenticated with the stored token.
No token-expiry check occurs on this path. -/
def connect (s : ClientState) : ClientState × List Action :=
  if !(truthy s.wsToken) || !(truthy s.wsServerUrl) then
    (s, [Action.onErrorCb "No JWT token or server URL. Call initialize() first."])
  else if s.socketExists && s.socketConnected then
    (s, [])
  else
    ({ s with socketExists := true, socketConnected := false },
     [Action.createSocket (jsStr s.wsToken)])

/-- Outcome of an `initialize()` call as seen by its continuation: on
success the call stored a fresh token, server URL and expiry before
returning; on failure (network or HTTP error) it returned `null` leaving
those fields untouched. -/
inductive InitOutcome where
  | success (wsToken wsServerUrl : String) (tokenExpiresAt : Nat)
  | failure
  deriving Repr, DecidableEq

/-- State update performed by `initialize()` on the token fields, by
outcome. -/
def applyInitResult (s : ClientState) (outcome : InitOutcome) : ClientState :=
  match outcome with
  | .success tok url expiresAt =>
      { s with wsToken := some tok, wsServerUrl := some url, tokenExpiresAt := some expiresAt }
  | .failure => s

/-- The auth-related disconnect-reason test performed by the `disconnect`
handler registered in `connect`. -/
def isAuthErrorReason (reason : String) : Bool :=
  (reason == "io server disconnect") || strIncludes reason "auth" ||
    strIncludes reason "token" || strIncludes reason "unauthorized"

/-- Embedding of the socket `disconnect` handler registered in `connect`,
together with the `.then` continuation of the `initialize` call it starts:
notify the disconnect callback; when reconnection is enabled and the
closure is auth-related or the token is expired, run `initialize` and then
call `connect` whenever a token and URL are present afterwards — whether or
not the `initialize` succeeded. -/
def onDisconnectEvent (s : ClientState) (reason : String) (now : Nat)
    (outcome : InitOutcome) : ClientState × List Action :=
  if s.shouldReconnect && (isAuthErrorReason reason || isTokenExpired s.tokenExpiresAt now) then
    let s1 := applyInitResult s outcome
    (s1, Action.onDisconnectCb :: Action.runInitialize s.visitorId ::
      (if truthy s1.wsToken && truthy s1.wsServerUrl then
         [Action.runConnect (jsStr s1.wsToken)]
       else []))
  else
    (s, [Action.onDisconnectCb])

/-- Embedding of `disconnect()`: disable reconnection, cancel the reconnect
and token-refresh timers, tear down the socket. -/
def disconnect (s : ClientState) : ClientState :=
  { s with
    shouldReconnect := false
    reconnectTimer := false
    tokenRefreshTimer := none
    socketExists := false
    socketConnected := false }

/-- Synchronous part of the socket `disconnect` handler, up to the point
where `initialize()` is started: notify the disconnect callback and report
whether the guard passed and a re-initialize is now in flight.  This split
(versus the fused `onDisconnectEvent`) exposes the interleaving where
`disconnect()` is called while the `initialize()` is pending. -/
def disconnectHandlerStart (s : ClientState) (reason : String) (now : Nat) :
    Bool × List Action :=
  if s.shouldReconnect && (isAuthErrorReason reason || isTokenExpired s.tokenExpiresAt now) then
    (true, [Action.onDisconnectCb, Action.runInitialize s.visitorId])
  else
    (false, [Action.onDisconnectCb])

/-- The `.then` continuation of the `initialize()` call started by the
`disconnect` handler, run on whatever state holds when the call resolves:
`if (this.wsToken && this.wsServerUrl) this.connect()`.  It re-checks
neither `shouldReconnect` nor the socket. -/
def disconnectHandlerContinuation (s : ClientState) (outcome : InitOutcome) :
    ClientState × List Action :=
  let s1 := applyInitResult s outcome
  if truthy s1.wsToken && truthy s1.wsServerUrl then
    connect s1
  else
    (s1, [])

/-- The `(data.expires_in || 900) * 1000` computation in `initialize`:
token lifetime in milliseconds, defaulting to 900 seconds when the field is
absent or zero (falsy). -/
def computeExpiresInMs (expires_in : Option Nat) : Nat :=
  (match expires_in with
   | some n => if n == 0 then 900 else n
   | none => 900) * 1000

/-- The `expiresInMs * 0.8` refresh delay.  The lifetime is a whole number
of seconds times 1000, so the multiplication by 0.8 is exact and equals
`expiresInMs * 4 / 5` in integers. -/
def refreshDelayMs (expiresInMs : Nat) : Nat :=
  expiresInMs * 4 / 5

/-- Embedding of `scheduleTokenRefresh`: the previous timer is always
cleared; no new timer is set when the requested delay is under one minute,
otherwise a timer with that delay is pending. -/
def scheduleTokenRefresh (refreshInMs : Nat) : Option Nat :=
  if refreshInMs < 60000 then none else some refreshInMs

/-- Embedding of the timer callback set by `scheduleTokenRefresh`: only
when the socket exists and is connected at firing time, re-run `initialize`
with the stored visitor id; on success, if the socket still exists,
disconnect it and reconnect (with the fresh token) only when it was
connected after the `initialize` completed. -/
def onTokenRefreshFired (s : ClientState) (outcome : InitOutcome)
    (socketExistsAfter socketConnectedAfter : Bool) : List Action :=
  if s.socketExists && s.socketConnected then
    Action.runInitialize s.visitorId ::
      (match outcome with
       | .success tok _ _ =>
           if socketExistsAfter then
             Action.disconnectSocket ::
               (if socketConnectedAfter then [Action.runConnect tok] else [])
           else []
       | .failure => [])
  else []

/-- The placeholder tenant-id values rejected by `initialize` and
`sendMessage`. -/
def placeholderValues : List String :=
  ["your-tenant-id", "tenant-id", "your_tenant_id", "tenant_id", ""]

/-- The `x && !placeholderValues.includes(String(x).toLowerCase())` guard
used by the identifier resolution in `initialize`. -/
def acceptedId (v : Option String) : Bool :=
  truthy v && !(placeholderValues.contains (jsToLower (jsStr v)))

/-- Embedding of the tenant / integration / site resolution at the end of
`initialize` (after a successful response): the early unconditional
`if (data.integration_id) this.integrationId = data.integration_id` and
`site_id` counterparts, the three placeholder-filtered priority chains, and
the final assignments `this.tenantId = finalTenantId`,
`this.integrationId = finalIntegrationId || this.integrationId`,
`this.siteId = finalSiteId || this.siteId`.  Returns the stored
`(tenantId, integrationId, siteId)` triple. -/
def resolveIds (ctorTenantId prevIntegrationId prevSiteId
    respTenantId respIntegrationId respSiteId
    tokTenantId tokIntegrationId tokSiteId : Option String) :
    Option String × Option String × Option String :=
  let integrationId1 := if truthy respIntegrationId then respIntegrationId else prevIntegrationId
  let siteId1 := if truthy respSiteId then respSiteId else prevSiteId
  let finalTenantId :=
    if acceptedId respTenantId then respTenantId
    else if acceptedId tokTenantId then tokTenantId
    else if acceptedId ctorTenantId then ctorTenantId
    else none
  let finalIntegrationId :=
    if acceptedId respIntegrationId then respIntegrationId
    else if acceptedId tokIntegrationId then tokIntegrationId
    else none
  let finalSiteId :=
    if acceptedId respSiteId then respSiteId
    else if acceptedId tokSiteId then tokSiteId
    else none
  (finalTenantId, jsOr finalIntegrationId integrationId1, jsOr finalSiteId siteId1)

/-- Session information read from local storage by `sendMessage` (via
`getSessionInfo` in the session module, external to the verified core). -/
structure SessionInfo where
  sessionId : Option String := none
  fingerprint : Option String := none
  deriving Repr, DecidableEq

/-- Embedding of `sendMessage` (browser case).  `Except.error` is a
synchronous throw; `Except.ok` carries the payload emitted on the socket.
The checks appear in source order, all before the emit. -/
def sendMessage (s : ClientState) (sessionInfo : SessionInfo) (senderName : Option String)
    (nowIso : String) (text : String) (tempId : Option String) :
    Except String OutboundMessage :=
  if !(s.socketExists && s.socketConnected) then
    .error "Socket.IO is not connected"
  else
    let isPlaceholder := truthy s.tenantId &&
      placeholderValues.contains (jsToLower (jsStr s.tenantId))
    if !(truthy s.tenantId) || isPlaceholder then
      .error (if isPlaceholder then
        "tenantId is a placeholder value (\"" ++ jsStr s.tenantId ++
          "\"). Gateway must return actual tenant_id in /webchat/init response."
      else
        "tenantId is required but not available. Make sure initialize() was called successfully and Gateway returned tenant_id.")
    else if !(truthy s.integrationId) then
      .error "integration_id is required but not available. Gateway must return integration_id in /webchat/init response or include it in JWT token payload."
    else
      .ok { text := text
            tenantId := s.tenantId
            tenant_id := s.tenantId
            conversation_id := s.conversationId
            visitor_id := s.visitorId
            timestamp := nowIso
            sessionId := sessionInfo.sessionId
            fingerprint := sessionInfo.fingerprint
            integration_id := if truthy s.integrationId then s.integrationId else none
            integrationId := if truthy s.integrationId then s.integrationId else none
            site_id := if truthy s.siteId then s.siteId else none
            siteId := if truthy s.siteId then s.siteId else none
            userId := none
            sender_name := if truthy senderName then senderName else none
            temp_id := if truthy tempId then tempId else none }

/-- Number of `deliver` actions (invocations of the `onMessage` callback)
in a trace. -/
def deliverCount (tr : List Action) : Nat :=
  (tr.filter (fun a => match a with | Action.deliver _ => true | _ => false)).length

/-- Number of `onErrorCb` actions (invocations of the `onError` callback)
in a trace. -/
def errorCount (tr : List Action) : Nat :=
  (tr.filter (fun a => match a with | Action.onErrorCb _ => true | _ => false)).length

/-- Event `a` precedes event `b` in trace `tr`: every prefix of `tr`
containing `b` already contains `a`.  Vacuously true when `b` never
occurs. -/
def precedes {α : Type} (a b : α) (tr : List α) : Prop :=
  ∀ n, b ∈ tr.take n → a ∈ tr.take n

/-! Helper lemmas. -/

/-- Precedence is vacuous on the empty trace. -/
theorem precedes_nil {α : Type} (a b : α) : precedes a b [] := by
  intro n hb
  simp at hb

/-- The head of a trace precedes everything in it. -/
theorem precedes_head {α : Type} (a b : α) (tr : List α) : precedes a b (a :: tr) := by
  intro n hb
  cases n with
  | zero => simp at hb
  | succ m => simp [List.take]

/-- Precedence is preserved by prepending an action that is not the
awaited one. -/
theorem precedes_cons {α : Type} (a b c : α) (tr : List α) (h : c ≠ b)
    (hp : precedes a b tr) : precedes a b (c :: tr) := by
  intro n hb
  cases n with
  | zero => simp at hb
  | succ m =>
    simp only [List.take] at hb ⊢
    rcases List.mem_cons.mp hb with h1 | h1
    · exact absurd h1.symm h
    · exact List.mem_cons.mpr (Or.inr (hp m h1))

/-- Precedence is vacuous when the awaited action never occurs. -/
theorem precedes_of_not_mem {α : Type} (a b : α) (tr : List α) (h : b ∉ tr) :
    precedes a b tr := by
  intro n hb
  exact absurd (List.take_subset n tr hb) h

/-- Transformation preserves the `conversation_id` field. -/
theorem transform_conversation_id (nowIso : String) (d : RawMessage) :
    (transformMessageNewToMessage nowIso d).conversation_id = d.conversation_id := by
  simp only [transformMessageNewToMessage]
  split <;> rfl

/-- The pre-persistence event of the normalization-equivalence scenario:
`{message_text: "hi", sender_type: "user", id: "evt-1"}`. -/
def preEvt : RawMessage :=
  { message_text := some "hi", sender_type := some "user", id := some "evt-1" }

/-- The post-persistence event of the normalization-equivalence scenario:
`{text: "hi", sender: "user", message_id: "msg-42", conversation_id: "c1"}`. -/
def postEvt : RawMessage :=
  { text := some "hi", sender := some "user", message_id := some "msg-42",
    conversation_id := some "c1" }

/-- A freshly connected client sitting in its session room, no conversation
known yet. -/
def sessionRoomState : ClientState :=
  { presenceSessionId := some "s1", currentRoom := some "session:s1",
    socketExists := true, socketConnected := true }

/-- A client that already knows conversation `c1`. -/
def knownConversationState : ClientState :=
  { conversationId := some "c1" }

/-- Two distinct raw events (different id fields) for conversation `c2`
with identical dedup keys. -/
def mismatch1 : RawMessage :=
  { text := some "hi", sender_type := some "user", conversation_id := some "c2",
    id := some "a" }

/-- A session-room client whose dedup cache already holds the key of the
`c9` "hi" message, recorded at time 0. -/
def dupSeededState : ClientState :=
  { presenceSessionId := some "s1", currentRoom := some "session:s1",
    socketExists := true, socketConnected := true,
    processedMessageKeys := [("c9:user:hi", 0)] }

/-- A message-delivery event for conversation `c9`. -/
def c9Evt : RawMessage :=
  { text := some "hi", sender_type := some "user", conversation_id := some "c9",
    id := some "x" }

/-- A connected client with an expired token and reconnection enabled —
the state in which a transport close starts a re-initialize. -/
def inflightState : ClientState :=
  { shouldReconnect := true, socketExists := true, socketConnected := true,
    wsToken := some "tok-1", wsServerUrl := some "wss://srv",
    tokenExpiresAt := some 1000, visitorId := some "v1" }

/-! Claim theorems. -/

/-- Claim C1, counterexample: for the spec's concrete event pair, the two
dedup keys DIFFER (the pre-persistence event carries no conversation id, so
its key starts with `undefined:`), and when both events arrive within 60
seconds on the session-room listeners of a fresh client, both are delivered
to the `onMessage` callback — not exactly one. -/
theorem claim_C1_counterexample :
    getMessageKey preEvt ≠ getMessageKey postEvt ∧
    deliverCount (handlePresenceMessageEvent sessionRoomState 0
      "2024-01-01T00:00:00.000Z" preEvt).2 = 1 ∧
    deliverCount (handlePresenceMessageEvent
      (handlePresenceMessageEvent sessionRoomState 0 "2024-01-01T00:00:00.000Z" preEvt).1
      1000 "2024-01-01T00:00:01.000Z" postEvt).2 = 1 := by
  decide

/-- Claim C1, amended: normalization of the two events produces canonical
messages with differing raw ids (`evt-1` vs `msg-42`), but the dedup keys
differ (`undefined:user:hi` vs `c1:user:hi`) because the pre-persistence
event carries no conversation id, so when both events are received within
60 seconds each one is delivered to the `onMessage` callback. -/
theorem claim_C1_amended :
    (transformMessageNewToMessage "2024-01-01T00:00:00.000Z" preEvt).id = some "evt-1" ∧
    (transformMessageNewToMessage "2024-01-01T00:00:00.000Z" postEvt).id = some "msg-42" ∧
    getMessageKey preEvt = "undefined:user:hi" ∧
    getMessageKey postEvt = "c1:user:hi" ∧
    deliverCount (handlePresenceMessageEvent sessionRoomState 0
      "2024-01-01T00:00:00.000Z" preEvt).2 = 1 ∧
    deliverCount (handlePresenceMessageEvent
      (handlePresenceMessageEvent sessionRoomState 0 "2024-01-01T00:00:00.000Z" preEvt).1
      1000 "2024-01-01T00:00:01.000Z" postEvt).2 = 1 := by
  decide

/-- Claim C3: in every handover produced by `switchToConversationRoom`,
the conversation-room listeners are installed before the
`join:conversation` emit, every `leave:session` emit is preceded by the
join emit and by the received `joined` confirmation, and no leave is ever
emitted when the confirmation does not arrive. -/
theorem claim_C3 (s : ClientState) (conversationId : String) (joinedArrives : Bool) :
    precedes Action.setupConversationListeners (Action.emitJoinConversation conversationId)
      (switchToConversationRoom s conversationId joinedArrives).2 ∧
    (∀ sid, precedes (Action.emitJoinConversation conversationId) (Action.emitLeaveSession sid)
      (switchToConversationRoom s conversationId joinedArrives).2) ∧
    (∀ sid, precedes Action.receivedJoinedConfirmation (Action.emitLeaveSession sid)
      (switchToConversationRoom s conversationId joinedArrives).2) ∧
    (joinedArrives = false →
      ∀ sid, Action.emitLeaveSession sid ∉ (switchToConversationRoom s conversationId joinedArrives).2) := by
  by_cases hc : (s.socketExists && s.socketConnected) = true
  · cases joinedArrives with
    | false =>
      have htr : (switchToConversationRoom s conversationId false).2
          = [Action.setupConversationListeners, Action.emitJoinConversation conversationId] := by
        simp [switchToConversationRoom, switchToConversationRoomSync, hc]
      refine ⟨?_, ?_, ?_, ?_⟩
      · rw [htr]; exact precedes_head _ _ _
      · intro sid; rw [htr]
        exact precedes_of_not_mem _ _ _ (by simp)
      · intro sid; rw [htr]
        exact precedes_of_not_mem _ _ _ (by simp)
      · intro _ sid; rw [htr]; simp
    | true =>
      by_cases hp : truthy s.presenceSessionId = true
      · have htr : (switchToConversationRoom s conversationId true).2
            = [Action.setupConversationListeners, Action.emitJoinConversation conversationId,
               Action.receivedJoinedConfirmation,
               Action.emitLeaveSession (jsStr s.presenceSessionId),
               Action.onConversationCreatedCb conversationId] := by
          simp [switchToConversationRoom, switchToConversationRoomSync,
            onJoinedConfirmationBody, hc, hp]
        refine ⟨?_, ?_, ?_, ?_⟩
        · rw [htr]; exact precedes_head _ _ _
        · intro sid; rw [htr]
          exact precedes_cons _ _ _ _ (by simp) (precedes_head _ _ _)
        · intro sid; rw [htr]
          exact precedes_cons _ _ _ _ (by simp)
            (precedes_cons _ _ _ _ (by simp) (precedes_head _ _ _))
        · intro h; simp at h
      · have hp2 : truthy s.presenceSessionId = false := by simpa using hp
        have htr : (switchToConversationRoom s conversationId true).2
            = [Action.setupConversationListeners, Action.emitJoinConversation conversationId,
               Action.receivedJoinedConfirmation,
               Action.onConversationCreatedCb conversationId] := by
          simp [switchToConversationRoom, switchToConversationRoomSync,
            onJoinedConfirmationBody, hc, hp2]
        refine ⟨?_, ?_, ?_, ?_⟩
        · rw [htr]; exact precedes_head _ _ _
        · intro sid; rw [htr]
          exact precedes_of_not_mem _ _ _ (by simp)
        · intro sid; rw [htr]
          exact precedes_of_not_mem _ _ _ (by simp)
        · intro h; simp at h
  · have hc2 : (s.socketExists && s.socketConnected) = false := by simpa using hc
    have htr : (switchToConversationRoom s conversationId joinedArrives).2 = [] := by
      simp [switchToConversationRoom, switchToConversationRoomSync, hc2]
    refine ⟨?_, ?_, ?_, ?_⟩
    · rw [htr]; exact precedes_nil _ _
    · intro sid; rw [htr]; exact precedes_nil _ _
    · intro sid; rw [htr]; exact precedes_nil _ _
    · intro _ sid; rw [htr]; simp

/-- Claim C3, witness: the ordering facts instantiated on a connected
session-room client switching to conversation `c9` with the confirmation
arriving. -/
theorem claim_C3_witness :
    precedes Action.setupConversationListeners (Action.emitJoinConversation "c9")
      (switchToConversationRoom sessionRoomState "c9" true).2 ∧
    precedes Action.receivedJoinedConfirmation (Action.emitLeaveSession "s1")
      (switchToConversationRoom sessionRoomState "c9" true).2 :=
  ⟨(claim_C3 sessionRoomState "c9" true).1,
   (claim_C3 sessionRoomState "c9" true).2.2.1 "s1"⟩

/-- Claim C4, counterexample: a message-delivery event carrying
conversation id `c9` arrives while NO conversation id is locally known,
yet it is neither delivered nor adopted, because its dedup key was
recorded 30 seconds earlier — so "every message-delivery event received
while no conversation id is locally known ... is delivered" fails. -/
theorem claim_C4_counterexample :
    dupSeededState.conversationId = none ∧
    c9Evt.conversation_id = some "c9" ∧
    (handlePresenceMessageEvent dupSeededState 30000 "T" c9Evt).2 = [] ∧
    (handlePresenceMessageEvent dupSeededState 30000 "T" c9Evt).1.conversationId = none := by
  decide

/-- Claim C4, amended: for a message-delivery event on the session-room
listeners whose dedup key is at first sight: when no conversation id is
known, the client is not already in a conversation room and the socket is
connected, an event carrying a conversation id makes the client adopt that
id, emit the conversation-room join (handover) and deliver the message;
and when a conversation id is already known, an event with a different
conversation id is never delivered (regardless of dedup or room state). -/
theorem claim_C4_amended (s : ClientState) (e : RawMessage) (now : Nat) (iso : String)
    (c : String) :
    (s.conversationId = none →
     roomIsConversation s.currentRoom = false →
     hasProcessedMessage s.processedMessageKeys now (getMessageKey e) = false →
     e.conversation_id = some c →
     c ≠ "" →
     (s.socketExists && s.socketConnected) = true →
     ((handlePresenceMessageEvent s now iso e).1.conversationId = some c ∧
      Action.emitJoinConversation c ∈ (handlePresenceMessageEvent s now iso e).2 ∧
      ∃ m, Action.deliver m ∈ (handlePresenceMessageEvent s now iso e).2)) ∧
    (∀ k, s.conversationId = some k → k ≠ "" →
     e.conversation_id = some c → c ≠ "" → c ≠ k →
     ∀ m, Action.deliver m ∉ (handlePresenceMessageEvent s now iso e).2) := by
  constructor
  · intro hnone hroom hfresh hec hc hconn
    have htc : truthy (some c) = true := by
      simp [truthy]
      exact hc
    have hmc : (transformMessageNewToMessage iso e).conversation_id = some c := by
      rw [transform_conversation_id, hec]
    simp [handlePresenceMessageEvent, hroom, hfresh, hmc, htc, hnone, truthy, hc,
      switchToConversationRoomSync, hconn, jsStr]
  · intro k hk hkne hec hc hck m
    by_cases hroom : roomIsConversation s.currentRoom = true
    · simp [handlePresenceMessageEvent, hroom]
    · have hroom2 : roomIsConversation s.currentRoom = false := by simpa using hroom
      by_cases hfresh : hasProcessedMessage s.processedMessageKeys now (getMessageKey e) = true
      · simp [handlePresenceMessageEvent, hroom2, hfresh]
      · have hfr : hasProcessedMessage s.processedMessageKeys now (getMessageKey e) = false := by
          simpa using hfresh
        have hmc : (transformMessageNewToMessage iso e).conversation_id = some c := by
          rw [transform_conversation_id, hec]
        have htc : truthy (some c) = true := by
          simp [truthy]
          exact hc
        have htk : truthy (some k) = true := by
          simp [truthy]
          exact hkne
        have hne : ((some c : Option String) == some k) = false := by
          simp [hck]
        simp [handlePresenceMessageEvent, hroom2, hfr, hmc, htc, hk, htk, hne]

/-- Claim C4, witness: part one on a fresh session-room client receiving
the `c9` event, part two on a client knowing `c1` receiving a `c2` event. -/
theorem claim_C4_witness :
    ((handlePresenceMessageEvent sessionRoomState 0 "T" c9Evt).1.conversationId = some "c9" ∧
     Action.emitJoinConversation "c9" ∈ (handlePresenceMessageEvent sessionRoomState 0 "T" c9Evt).2 ∧
     ∃ m, Action.deliver m ∈ (handlePresenceMessageEvent sessionRoomState 0 "T" c9Evt).2) ∧
    (∀ m, Action.deliver m ∉ (handlePresenceMessageEvent knownConversationState 0 "T" mismatch1).2) :=
  ⟨(claim_C4_amended sessionRoomState c9Evt 0 "T" "c9").1 (by decide) (by decide)
      (by decide) (by decide) (by decide) (by decide),
   fun m => (claim_C4_amended knownConversationState mismatch1 0 "T" "c2").2 "c1"
      (by decide) (by decide) (by decide) (by decide) (by decide) m⟩

/-- Claim C5: `sendMessage` throws synchronously, with a distinct message
naming the unmet requirement, when the connection is not open, when the
tenant id is absent (or empty) or equals a placeholder value
case-insensitively, or when the integration id is absent; and a payload is
emitted only when every one of these preconditions holds, so no check ever
happens after an emit. -/
theorem claim_C5 (s : ClientState) (sessionInfo : SessionInfo) (senderName : Option String)
    (nowIso text : String) (tempId : Option String) :
    ((s.socketExists && s.socketConnected) = false →
      sendMessage s sessionInfo senderName nowIso text tempId
        = .error "Socket.IO is not connected") ∧
    ((s.socketExists && s.socketConnected) = true → truthy s.tenantId = false →
      sendMessage s sessionInfo senderName nowIso text tempId
        = .error "tenantId is required but not available. Make sure initialize() was called successfully and Gateway returned tenant_id.") ∧
    (∀ t, (s.socketExists && s.socketConnected) = true → s.tenantId = some t → t ≠ "" →
      placeholderValues.contains (jsToLower t) = true →
      sendMessage s sessionInfo senderName nowIso text tempId
        = .error ("tenantId is a placeholder value (\"" ++ t ++
            "\"). Gateway must return actual tenant_id in /webchat/init response.")) ∧
    ((s.socketExists && s.socketConnected) = true → truthy s.tenantId = true →
      placeholderValues.contains (jsToLower (jsStr s.tenantId)) = false →
      truthy s.integrationId = false →
      sendMessage s sessionInfo senderName nowIso text tempId
        = .error "integration_id is required but not available. Gateway must return integration_id in /webchat/init response or include it in JWT token payload.") ∧
    (∀ p, sendMessage s sessionInfo senderName nowIso text tempId = .ok p →
      (s.socketExists && s.socketConnected) = true ∧ truthy s.tenantId = true ∧
      placeholderValues.contains (jsToLower (jsStr s.tenantId)) = false ∧
      truthy s.integrationId = true) := by
  refine ⟨?_, ?_, ?_, ?_, ?_⟩
  · intro hs
    simp [sendMessage, hs]
  · intro hs ht
    simp [sendMessage, hs, ht]
  · intro t hs ht htne hph
    have hmem : jsToLower t ∈ placeholderValues := by
      simpa using hph
    have htt : truthy (some t) = true := by
      simp [truthy]
      exact htne
    simp [sendMessage, hs, ht, jsStr, htt, hmem]
  · intro hs ht hph hi
    have hmem : jsToLower (jsStr s.tenantId) ∉ placeholderValues := by
      simpa using hph
    simp [sendMessage, hs, ht, hmem, hi]
  · intro p hok
    by_cases hs : (s.socketExists && s.socketConnected) = true
    · by_cases ht : truthy s.tenantId = true
      · by_cases hph : placeholderValues.contains (jsToLower (jsStr s.tenantId)) = true
        · have hmem : jsToLower (jsStr s.tenantId) ∈ placeholderValues := by
            simpa using hph
          simp [sendMessage, hs, ht, hmem] at hok
        · have hph2 : placeholderValues.contains (jsToLower (jsStr s.tenantId)) = false := by
            simpa using hph
          have hmem : jsToLower (jsStr s.tenantId) ∉ placeholderValues := by
            simpa using hph2
          by_cases hi : truthy s.integrationId = true
          · exact ⟨hs, ht, hph2, hi⟩
          · have hi2 : truthy s.integrationId = false := by simpa using hi
            simp [sendMessage, hs, ht, hmem, hi2] at hok
      · have ht2 : truthy s.tenantId = false := by simpa using ht
        simp [sendMessage, hs, ht2] at hok
    · have hs2 : (s.socketExists && s.socketConnected) = false := by simpa using hs
      simp [sendMessage, hs2] at hok

/-- Claim C5, witness: concrete runs of each branch — not connected,
placeholder tenant, missing integration — and a successful emit. -/
theorem claim_C5_witness :
    sendMessage { } { } none "T" "hello" none = .error "Socket.IO is not connected" ∧
    sendMessage { tenantId := some "Tenant-ID", socketExists := true, socketConnected := true }
      { } none "T" "hello" none
      = .error "tenantId is a placeholder value (\"Tenant-ID\"). Gateway must return actual tenant_id in /webchat/init response." ∧
    sendMessage { tenantId := some "acme", socketExists := true, socketConnected := true }
      { } none "T" "hello" none
      = .error "integration_id is required but not available. Gateway must return integration_id in /webchat/init response or include it in JWT token payload." := by
  refine ⟨?_, ?_, ?_⟩
  · exact (claim_C5 { } { } none "T" "hello" none).1 (by decide)
  · exact (claim_C5 { tenantId := some "Tenant-ID", socketExists := true, socketConnected := true }
      { } none "T" "hello" none).2.2.1 "Tenant-ID" (by decide) (by decide) (by decide) (by decide)
  · exact (claim_C5 { tenantId := some "acme", socketExists := true, socketConnected := true }
      { } none "T" "hello" none).2.2.2.1 (by decide) (by decide) (by decide) (by decide)

/-- Claim C6, counterexample: with reconnection enabled, a token already
expired at disconnect time and an `initialize()` that FAILS, the handler
still calls `connect()` afterwards, reusing the stale token — so
"connect() occurs only after that initialize() has completed successfully;
the stale token is never reused" is false. -/
theorem claim_C6_counterexample :
    isTokenExpired (some 1000) 500000 = true ∧
    (onDisconnectEvent
      { shouldReconnect := true, wsToken := some "stale-token",
        wsServerUrl := some "wss://srv", tokenExpiresAt := some 1000,
        visitorId := some "v1" }
      "transport close" 500000 InitOutcome.failure).2
      = [Action.onDisconnectCb, Action.runInitialize (some "v1"),
         Action.runConnect "stale-token"] := by
  decide

/-- Claim C6, amended: on a disconnect with reconnection enabled whose
reason is auth-related or with `isTokenExpired()` true, a fresh
`initialize()` is run and any subsequent `connect()` happens only after
that `initialize()` has COMPLETED (successfully or not): on success the
new token is used, on failure the previous token — possibly stale — is
reused whenever a token and server URL are present.  `isTokenExpired()` is
true exactly when there is no stored expiry or the current time is within
60 seconds of (or past) the stored expiry. -/
theorem claim_C6_amended (s : ClientState) (reason : String) (now : Nat)
    (outcome : InitOutcome)
    (hr : s.shouldReconnect = true)
    (hcond : (isAuthErrorReason reason || isTokenExpired s.tokenExpiresAt now) = true) :
    (∃ rest, (onDisconnectEvent s reason now outcome).2
      = Action.onDisconnectCb :: Action.runInitialize s.visitorId :: rest) ∧
    (∀ tok, precedes (Action.runInitialize s.visitorId) (Action.runConnect tok)
      (onDisconnectEvent s reason now outcome).2) ∧
    (∀ tok url e, outcome = InitOutcome.success tok url e → tok ≠ "" → url ≠ "" →
      Action.runConnect tok ∈ (onDisconnectEvent s reason now outcome).2) ∧
    (outcome = InitOutcome.failure →
      ∀ tok, Action.runConnect tok ∈ (onDisconnectEvent s reason now outcome).2 →
        s.wsToken = some tok) ∧
    (∀ e, isTokenExpired (some e) now = true ↔ e ≤ now + 60000) ∧
    isTokenExpired none now = true := by
  have hguard : (s.shouldReconnect &&
      (isAuthErrorReason reason || isTokenExpired s.tokenExpiresAt now)) = true := by
    rw [hr, hcond]
    rfl
  refine ⟨?_, ?_, ?_, ?_, ?_, rfl⟩
  · simp only [onDisconnectEvent, hguard, if_pos]
    exact ⟨_, rfl⟩
  · intro tok
    simp only [onDisconnectEvent, hguard, if_pos]
    refine precedes_cons _ _ _ _ (by simp) (precedes_head _ _ _)
  · intro tok url e ho htok hurl
    subst ho
    simp [onDisconnectEvent, hguard, applyInitResult, truthy, htok, hurl, jsStr]
  · intro ho tok hmem
    subst ho
    by_cases hw : (truthy s.wsToken && truthy s.wsServerUrl) = true
    · simp only [onDisconnectEvent, hguard, if_pos, applyInitResult, hw] at hmem
      simp at hmem
      have ht : truthy s.wsToken = true := (Bool.and_eq_true_iff.mp hw).1
      cases hwt : s.wsToken with
      | none =>
        rw [hwt] at ht
        simp [truthy] at ht
      | some t =>
        rw [hwt] at hmem
        simp [jsStr] at hmem
        simp [hmem]
    · have hw2 : (truthy s.wsToken && truthy s.wsServerUrl) = false := by
        simpa using hw
      simp [onDisconnectEvent, hguard, applyInitResult, hw2] at hmem
  · intro e
    simp only [isTokenExpired, decide_eq_true_eq]
    omega

/-- Claim C6, witness: the amended theorem run on a client with an expired
token whose re-initialize succeeds with a fresh token. -/
theorem claim_C6_witness :
    (∃ rest, (onDisconnectEvent
      { shouldReconnect := true, wsToken := some "stale-token",
        wsServerUrl := some "wss://srv", tokenExpiresAt := some 1000,
        visitorId := some "v1" }
      "transport close" 500000 (InitOutcome.success "fresh-token" "wss://srv" 900000000)).2
      = Action.onDisconnectCb :: Action.runInitialize (some "v1") :: rest) ∧
    Action.runConnect "fresh-token" ∈ (onDisconnectEvent
      { shouldReconnect := true, wsToken := some "stale-token",
        wsServerUrl := some "wss://srv", tokenExpiresAt := some 1000,
        visitorId := some "v1" }
      "transport close" 500000 (InitOutcome.success "fresh-token" "wss://srv" 900000000)).2 := by
  have h := claim_C6_amended
    { shouldReconnect := true, wsToken := some "stale-token",
      wsServerUrl := some "wss://srv", tokenExpiresAt := some 1000,
      visitorId := some "v1" }
    "transport close" 500000 (InitOutcome.success "fresh-token" "wss://srv" 900000000)
    (by decide) (by decide)
  exact ⟨h.1, h.2.2.1 "fresh-token" "wss://srv" 900000000 rfl (by decide) (by decide)⟩

/-- Dropping the placeholder guard: an accepted candidate is truthy. -/
theorem acceptedId_truthy (v : Option String) (h : acceptedId v = true) : truthy v = true :=
  (Bool.and_eq_true_iff.mp h).1

/-- An accepted candidate is never (case-insensitively) a placeholder. -/
theorem acceptedId_not_placeholder (t : String) (h : acceptedId (some t) = true) :
    placeholderValues.contains (jsToLower t) = false := by
  simp [acceptedId, jsStr] at h
  simpa using h.2

/-- Claim C7, counterexample: with `expires_in = 70` seconds the remaining
token lifetime (70000 ms) is NOT below the 1-minute minimum threshold, yet
no refresh timer is scheduled, because the code compares the 80% refresh
delay (56000 ms) — not the remaining lifetime — against one minute. -/
theorem claim_C7_counterexample :
    60000 ≤ computeExpiresInMs (some 70) ∧
    scheduleTokenRefresh (refreshDelayMs (computeExpiresInMs (some 70))) = none := by
  decide

/-- Claim C7, amended: after a successful `initialize()` a refresh timer is
scheduled at 80% of the token lifetime (`expiresIn`, defaulting to 900
seconds when absent), unless that 80% delay is below the 1-minute minimum —
equivalently unless the lifetime is below 75 seconds — in which case no
timer is scheduled.  When the timer fires while the socket exists and is
connected, `initialize()` is re-run with the last known visitor id; on a
successful re-initialize, if the socket still exists it is disconnected
and a new `connect()` (with the fresh token) is performed exactly when the
socket was connected after the re-initialize; a `connect()` happens only
when the re-initialize succeeded and the socket was connected, and nothing
at all happens when the socket was absent or not connected at firing time
— the refresh never opens a connection when none was open. -/
theorem claim_C7_amended (e : Nat) (s : ClientState) (outcome : InitOutcome)
    (socketExistsAfter socketConnectedAfter : Bool) :
    scheduleTokenRefresh (refreshDelayMs (computeExpiresInMs none)) = some 720000 ∧
    (75 ≤ e →
      scheduleTokenRefresh (refreshDelayMs (computeExpiresInMs (some e))) = some (e * 800)) ∧
    (0 < e → e < 75 →
      scheduleTokenRefresh (refreshDelayMs (computeExpiresInMs (some e))) = none) ∧
    ((s.socketExists && s.socketConnected) = false →
      onTokenRefreshFired s outcome socketExistsAfter socketConnectedAfter = []) ∧
    ((s.socketExists && s.socketConnected) = true →
      ∃ rest, onTokenRefreshFired s outcome socketExistsAfter socketConnectedAfter
        = Action.runInitialize s.visitorId :: rest) ∧
    (∀ tok, Action.runConnect tok ∈
        onTokenRefreshFired s outcome socketExistsAfter socketConnectedAfter →
      (∃ url ex, outcome = InitOutcome.success tok url ex) ∧ socketConnectedAfter = true) ∧
    ((s.socketExists && s.socketConnected) = true →
      ∀ tok url ex, outcome = InitOutcome.success tok url ex → socketExistsAfter = true →
        onTokenRefreshFired s outcome socketExistsAfter socketConnectedAfter
          = Action.runInitialize s.visitorId :: Action.disconnectSocket ::
              (if socketConnectedAfter then [Action.runConnect tok] else [])) := by
  refine ⟨by decide, ?_, ?_, ?_, ?_, ?_, ?_⟩
  · intro h75
    have h0 : (e == 0) = false := by
      simp
      omega
    have hdel : e * 1000 * 4 / 5 = e * 800 := by omega
    have hge : ¬(e * 800 < 60000) := by omega
    simp [computeExpiresInMs, h0, refreshDelayMs, hdel, scheduleTokenRefresh, hge]
  · intro h0 h75
    have h0b : (e == 0) = false := by
      simp
      omega
    have hdel : e * 1000 * 4 / 5 = e * 800 := by omega
    have hlt : e * 800 < 60000 := by omega
    simp [computeExpiresInMs, h0b, refreshDelayMs, hdel, scheduleTokenRefresh, hlt]
  · intro hg
    simp [onTokenRefreshFired, hg]
  · intro hg
    simp only [onTokenRefreshFired, hg, if_pos]
    exact ⟨_, rfl⟩
  · intro tok hmem
    by_cases hg : (s.socketExists && s.socketConnected) = true
    · simp only [onTokenRefreshFired, hg, if_pos] at hmem
      cases outcome with
      | failure => simp at hmem
      | success t2 url ex =>
        cases socketExistsAfter with
        | false => simp at hmem
        | true =>
          cases socketConnectedAfter with
          | false => simp at hmem
          | true =>
            simp at hmem
            exact ⟨⟨url, ex, by rw [hmem]⟩, rfl⟩
    · have hg2 : (s.socketExists && s.socketConnected) = false := by simpa using hg
      simp [onTokenRefreshFired, hg2] at hmem
  · intro hg tok url ex ho hsa
    subst ho
    simp [onTokenRefreshFired, hg, hsa]

/-- Claim C7, witness: with a 100-second lifetime the timer is scheduled
at 80 seconds; with a 60-second lifetime no timer is scheduled; a firing
with no connected socket does nothing; a firing on a connected socket
whose re-initialize succeeds replaces the connection — re-initialize,
disconnect the old socket, reconnect with the fresh token. -/
theorem claim_C7_witness :
    scheduleTokenRefresh (refreshDelayMs (computeExpiresInMs (some 100))) = some 80000 ∧
    scheduleTokenRefresh (refreshDelayMs (computeExpiresInMs (some 60))) = none ∧
    onTokenRefreshFired { } InitOutcome.failure false false = [] ∧
    onTokenRefreshFired
      { socketExists := true, socketConnected := true, visitorId := some "v9" }
      (InitOutcome.success "fresh-tok" "wss://srv" 1000000) true true
      = [Action.runInitialize (some "v9"), Action.disconnectSocket,
         Action.runConnect "fresh-tok"] := by
  have h := claim_C7_amended 100 { } InitOutcome.failure false false
  have h2 := claim_C7_amended 60 { } InitOutcome.failure false false
  have h3 := claim_C7_amended 100
    { socketExists := true, socketConnected := true, visitorId := some "v9" }
    (InitOutcome.success "fresh-tok" "wss://srv" 1000000) true true
  refine ⟨?_, ?_, ?_, ?_⟩
  · have := h.2.1 (by decide)
    simpa using this
  · exact h2.2.2.1 (by decide) (by decide)
  · exact h.2.2.2.1 (by decide)
  · have := h3.2.2.2.2.2.2 (by decide) "fresh-tok" "wss://srv" 1000000 rfl (by decide)
    simpa using this

/-- Claim C8, counterexample: a client holding a token that `isTokenExpired`
reports as expired still has `connect()` create a socket and attempt the
connection with that token — `connect()` checks only the presence of a
token and a server URL, never expiry. -/
theorem claim_C8_counterexample :
    isTokenExpired (some 1000) 500000 = true ∧
    (connect { wsToken := some "expired-tok", wsServerUrl := some "wss://srv",
               tokenExpiresAt := some 1000 }).2
      = [Action.createSocket "expired-tok"] := by
  decide

/-- Claim C8, amended: `connect()` fails fast — surfacing a descriptive
error through the error callback and opening no transport connection —
exactly when the token or the endpoint is absent; when both are present
and no socket is connected it attempts the connection with the stored
token, without any expiry check. -/
theorem claim_C8_amended (s : ClientState) :
    ((truthy s.wsToken = false ∨ truthy s.wsServerUrl = false) →
      connect s = (s, [Action.onErrorCb "No JWT token or server URL. Call initialize() first."]) ∧
      ∀ tok, Action.createSocket tok ∉ (connect s).2) ∧
    (truthy s.wsToken = true → truthy s.wsServerUrl = true →
      (s.socketExists && s.socketConnected) = false →
      (connect s).2 = [Action.createSocket (jsStr s.wsToken)]) := by
  constructor
  · intro h
    rcases h with h | h
    · constructor
      · simp [connect, h]
      · intro tok
        simp [connect, h]
    · constructor
      · simp [connect, h]
      · intro tok
        simp [connect, h]
  · intro h1 h2 hc
    simp [connect, h1, h2, hc]

/-- Claim C8, witness: a bare client fails through the error callback; a
client holding token and URL attempts the connection. -/
theorem claim_C8_witness :
    connect { } = ({ }, [Action.onErrorCb "No JWT token or server URL. Call initialize() first."]) ∧
    (connect { wsToken := some "tok", wsServerUrl := some "wss://srv" }).2
      = [Action.createSocket "tok"] := by
  have h1 := (claim_C8_amended { }).1 (Or.inl (by decide))
  have h2 := (claim_C8_amended { wsToken := some "tok", wsServerUrl := some "wss://srv" }).2
    (by decide) (by decide) (by decide)
  exact ⟨h1.1, by simpa [jsStr] using h2⟩

/-- Claim C9, counterexample: a close event on a connected client with an
expired token starts a re-initialize; the caller then invokes
`disconnect()` (reconnection disabled, socket destroyed); yet when the
in-flight `initialize()` resolves, its continuation — which re-checks
neither `shouldReconnect` nor the socket — calls `connect()` and creates a
fresh socket: the caller-requested disconnect IS undone by the in-flight
auto-reconnect. -/
theorem claim_C9_counterexample :
    (disconnectHandlerStart inflightState "transport close" 500000).1 = true ∧
    (disconnect inflightState).shouldReconnect = false ∧
    (disconnect inflightState).socketExists = false ∧
    (disconnectHandlerContinuation (disconnect inflightState)
      (InitOutcome.success "tok-2" "wss://srv" 2000000)).1.socketExists = true ∧
    (disconnectHandlerContinuation (disconnect inflightState)
      (InitOutcome.success "tok-2" "wss://srv" 2000000)).2
      = [Action.createSocket "tok-2"] := by
  decide

/-- Claim C9, amended: `disconnect()` is idempotent, cancels the
token-refresh and reconnect timers and disables reconnection, so a
transport-level close event arriving AFTER `disconnect()` only fires the
disconnect callback — it neither re-initializes nor reconnects, whatever
the close reason, clock time or initialize outcome.  However, a
re-initialize already in flight when `disconnect()` is called is not
cancelled: its continuation re-checks neither `shouldReconnect` nor the
socket, and `disconnect()` does not clear the stored token and server URL,
so on any successful resolution (non-empty token and URL) the continuation
unconditionally creates a fresh socket, undoing the disconnect. -/
theorem claim_C9_amended (s : ClientState) (reason : String) (now : Nat)
    (outcome : InitOutcome) :
    disconnect (disconnect s) = disconnect s ∧
    (disconnect s).tokenRefreshTimer = none ∧
    (disconnect s).reconnectTimer = false ∧
    (disconnect s).shouldReconnect = false ∧
    onDisconnectEvent (disconnect s) reason now outcome = (disconnect s, [Action.onDisconnectCb]) ∧
    (disconnectHandlerStart (disconnect s) reason now).1 = false ∧
    (∀ tok url ex, outcome = InitOutcome.success tok url ex → tok ≠ "" → url ≠ "" →
      (disconnectHandlerContinuation (disconnect s) outcome).2
        = [Action.createSocket tok] ∧
      (disconnectHandlerContinuation (disconnect s) outcome).1.socketExists = true) := by
  refine ⟨rfl, rfl, rfl, rfl, ?_, ?_, ?_⟩
  · simp [onDisconnectEvent, disconnect]
  · simp [disconnectHandlerStart, disconnect]
  · intro tok url ex ho htok hurl
    subst ho
    constructor
    · simp [disconnectHandlerContinuation, applyInitResult, disconnect, truthy,
        htok, hurl, connect, jsStr]
    · simp [disconnectHandlerContinuation, applyInitResult, disconnect, truthy,
        htok, hurl, connect, jsStr]

/-- Claim C9, witness: on the concrete in-flight scenario, a close event
after the disconnect stays inert, while the resolved in-flight
continuation creates a fresh socket. -/
theorem claim_C9_witness :
    onDisconnectEvent (disconnect inflightState) "transport close" 999999 InitOutcome.failure
      = (disconnect inflightState, [Action.onDisconnectCb]) ∧
    (disconnectHandlerContinuation (disconnect inflightState)
      (InitOutcome.success "tok-2" "wss://srv" 2000000)).2 = [Action.createSocket "tok-2"] := by
  have h1 := claim_C9_amended inflightState "transport close" 999999 InitOutcome.failure
  have h2 := claim_C9_amended inflightState "transport close" 999999
    (InitOutcome.success "tok-2" "wss://srv" 2000000)
  exact ⟨h1.2.2.2.2.1,
    (h2.2.2.2.2.2.2 "tok-2" "wss://srv" 2000000 rfl (by decide) (by decide)).1⟩

/-- Claim C10, counterexample: a response carrying the placeholder
`integration_id` value `tenant_id` (and no token/prior candidates) leaves
the stored integration id EQUAL to that placeholder, because the filtered
priority chain yields null and the code falls back to the value it had
already stored unconditionally from the response — so placeholder
filtering does not protect the integration identifier. -/
theorem claim_C10_counterexample :
    (resolveIds none none none (some "acme-1") (some "tenant_id") none none none none).2.1
      = some "tenant_id" ∧
    placeholderValues.contains (jsToLower "tenant_id") = true := by
  decide

/-- Claim C10, amended: the stored tenant id follows the fixed priority
response over token over constructor value with case-insensitive
placeholder candidates skipped at each step, and is therefore never a
placeholder (null when no candidate is acceptable).  The integration and
site ids follow the same response-over-token filtered priority, but when
it yields nothing they fall back to the previously stored value — which
the same `initialize()` run has already set unconditionally to the raw
response value when present — so they can end up holding a placeholder. -/
theorem claim_C10_amended (ctorT prevI prevS respT respI respS tokT tokI tokS : Option String) :
    (acceptedId respT = true →
      (resolveIds ctorT prevI prevS respT respI respS tokT tokI tokS).1 = respT) ∧
    (acceptedId respT = false → acceptedId tokT = true →
      (resolveIds ctorT prevI prevS respT respI respS tokT tokI tokS).1 = tokT) ∧
    (acceptedId respT = false → acceptedId tokT = false → acceptedId ctorT = true →
      (resolveIds ctorT prevI prevS respT respI respS tokT tokI tokS).1 = ctorT) ∧
    (acceptedId respT = false → acceptedId tokT = false → acceptedId ctorT = false →
      (resolveIds ctorT prevI prevS respT respI respS tokT tokI tokS).1 = none) ∧
    (∀ t, (resolveIds ctorT prevI prevS respT respI respS tokT tokI tokS).1 = some t →
      placeholderValues.contains (jsToLower t) = false) ∧
    (acceptedId respI = true →
      (resolveIds ctorT prevI prevS respT respI respS tokT tokI tokS).2.1 = respI) ∧
    (acceptedId respI = false → acceptedId tokI = true →
      (resolveIds ctorT prevI prevS respT respI respS tokT tokI tokS).2.1 = tokI) ∧
    (acceptedId respI = false → acceptedId tokI = false →
      (resolveIds ctorT prevI prevS respT respI respS tokT tokI tokS).2.1
        = (if truthy respI then respI else prevI)) ∧
    (acceptedId respS = true →
      (resolveIds ctorT prevI prevS respT respI respS tokT tokI tokS).2.2 = respS) ∧
    (acceptedId respS = false → acceptedId tokS = true →
      (resolveIds ctorT prevI prevS respT respI respS tokT tokI tokS).2.2 = tokS) ∧
    (acceptedId respS = false → acceptedId tokS = false →
      (resolveIds ctorT prevI prevS respT respI respS tokT tokI tokS).2.2
        = (if truthy respS then respS else prevS)) := by
  refine ⟨?_, ?_, ?_, ?_, ?_, ?_, ?_, ?_, ?_, ?_, ?_⟩
  · intro h
    simp [resolveIds, h]
  · intro h1 h2
    simp [resolveIds, h1, h2]
  · intro h1 h2 h3
    simp [resolveIds, h1, h2, h3]
  · intro h1 h2 h3
    simp [resolveIds, h1, h2, h3]
  · intro t hteq
    by_cases h1 : acceptedId respT = true
    · simp [resolveIds, h1] at hteq
      rw [hteq] at h1
      exact acceptedId_not_placeholder t h1
    · have h1b : acceptedId respT = false := by simpa using h1
      by_cases h2 : acceptedId tokT = true
      · simp [resolveIds, h1b, h2] at hteq
        rw [hteq] at h2
        exact acceptedId_not_placeholder t h2
      · have h2b : acceptedId tokT = false := by simpa using h2
        by_cases h3 : acceptedId ctorT = true
        · simp [resolveIds, h1b, h2b, h3] at hteq
          rw [hteq] at h3
          exact acceptedId_not_placeholder t h3
        · have h3b : acceptedId ctorT = false := by simpa using h3
          simp [resolveIds, h1b, h2b, h3b] at hteq
  · intro h
    simp [resolveIds, h, jsOr, acceptedId_truthy _ h]
  · intro h1 h2
    simp [resolveIds, h1, h2, jsOr, acceptedId_truthy _ h2]
  · intro h1 h2
    simp [resolveIds, h1, h2, jsOr, truthy]
  · intro h
    simp [resolveIds, h, jsOr, acceptedId_truthy _ h]
  · intro h1 h2
    simp [resolveIds, h1, h2, jsOr, acceptedId_truthy _ h2]
  · intro h1 h2
    simp [resolveIds, h1, h2, jsOr, truthy]

/-- Claim C10, witness: a placeholder response tenant id is skipped in
favour of the token value, and a token integration id is adopted when the
response carries none. -/
theorem claim_C10_witness :
    (resolveIds (some "ctor-t") none none (some "Tenant-ID") none none
      (some "real-tenant") (some "int-1") none).1 = some "real-tenant" ∧
    (resolveIds (some "ctor-t") none none (some "Tenant-ID") none none
      (some "real-tenant") (some "int-1") none).2.1 = some "int-1" := by
  have h := claim_C10_amended (some "ctor-t") none none (some "Tenant-ID") none none
    (some "real-tenant") (some "int-1") none
  exact ⟨h.2.1 (by decide) (by decide), h.2.2.2.2.2.2.1 (by decide) (by decide)⟩

end AmoiqChat
